import Mathlib

/-!
Shallow embedding of the vacation-rental backend (`src/main.py`,
`src/schemas.py`) and proofs of the specification claims.

Conventions of the embedding:
* Python floats become `ℚ`, Python ints become `ℤ`; none of the verified
  properties depend on floating-point rounding.
* A Python dict with a fixed key set becomes a structure whose fields are
  `Option`-typed when the corresponding key may be absent (`d.get(...)`).
* A Mongo filter dict becomes an ordered association list
  `List (String × FilterValue)`, in the insertion order of `main.py`.
* A Python exception escaping the handler is `HandlerError.uncaught`
  (FastAPI renders it as HTTP 500); a raised `HTTPException(s, d)` is
  `HandlerError.httpException s d`.
* `database.py` is not among the given sources, so the store adapter
  (`create_document`, `get_documents`, the Mongo collection object) is
  modelled from the spec, §4.2; those definitions say so in their
  doc comments.
-/

/-- A calendar date as parsed from a YYYY-MM-DD payload field
(`datetime.date` in `schemas.py`). -/
structure DateYMD where
  year : Int
  month : Int
  day : Int
deriving DecidableEq

/-- Lexicographic strict order on dates, used only to exhibit bookings
whose check_out precedes check_in. -/
def DateYMD.before (a b : DateYMD) : Bool :=
  (a.year < b.year) ||
  (a.year = b.year && (a.month < b.month ||
    (a.month = b.month && a.day < b.day)))

/-- A value of the filter dict built by `list_properties` in `main.py`.
`regexI p` stands for the Mongo condition with a regex pattern p and
the case-insensitive option; `range entries` stands for the
`price_per_night` sub-dict of gte/lte bounds, in insertion order;
`orOf clauses` stands for the Mongo any-of list whose elements are
single-field case-insensitive regex conditions `(field, pattern)`. -/
inductive FilterValue where
  | regexI (pattern : String)
  | range (entries : List (String × ℚ))
  | orOf (clauses : List (String × String))
deriving DecidableEq

/-- The filter construction of `list_properties` (`main.py` lines 113–128),
verbatim: a key is added only when the corresponding Python `if` fires,
and string parameters are tested by truthiness (`if q:`), so `None` and
the empty string both contribute nothing. -/
def buildFilter (q location : Option String) (min_price max_price : Option ℚ) :
    List (String × FilterValue) :=
  let filter_dict : List (String × FilterValue) :=
    match q with
    | some s =>
      if s = "" then []
      else [("$or", FilterValue.orOf
        [("title", s), ("description", s), ("location", s)])]
    | none => []
  let filter_dict :=
    match location with
    | some s =>
      if s = "" then filter_dict
      else filter_dict ++ [("location", FilterValue.regexI s)]
    | none => filter_dict
  let price_filter : List (String × ℚ) :=
    (match min_price with
     | some m => [("$gte", m)]
     | none => []) ++
    (match max_price with
     | some m => [("$lte", m)]
     | none => [])
  if price_filter = [] then filter_dict
  else filter_dict ++ [("price_per_night", FilterValue.range price_filter)]

section HexCodec

/-- Lowercase hex digit character for a value below 16, as in the string
rendering of a `bson.ObjectId`. -/
def hexDigitChar (n : Nat) : Char :=
  if n < 10 then Char.ofNat (48 + n) else Char.ofNat (87 + n)

/-- Value of a hex character, accepting both cases as `bson.ObjectId` does;
`none` on a non-hex character. -/
def hexCharVal (c : Char) : Option Nat :=
  if 48 ≤ c.toNat ∧ c.toNat ≤ 57 then some (c.toNat - 48)
  else if 97 ≤ c.toNat ∧ c.toNat ≤ 102 then some (c.toNat - 87)
  else if 65 ≤ c.toNat ∧ c.toNat ≤ 70 then some (c.toNat - 55)
  else none

/-- Big-endian fixed-width hex digits of a value (the value is taken modulo
16 ^ width by construction of the recursion). -/
def toHexDigits : Nat → Nat → List Char
  | 0, _ => []
  | w + 1, v => toHexDigits w (v / 16) ++ [hexDigitChar (v % 16)]

/-- The 24-character string rendering of an ObjectId, modelling
`str(bson.ObjectId)`; our abstract ObjectIds are naturals below 16 ^ 24. -/
def toHex24 (n : Nat) : String := String.mk (toHexDigits 24 (n % 16 ^ 24))

/-- Left fold of hex digits into a value; `none` on a non-hex character. -/
def parseHexAux : Nat → List Char → Option Nat
  | acc, [] => some acc
  | acc, c :: cs =>
    match hexCharVal c with
    | some d => parseHexAux (acc * 16 + d) cs
    | none => none

/-- Modelled from the library contract of `bson.ObjectId` (the `bson`
package is not among the given sources): the constructor accepts exactly a
24-character hex string and raises `InvalidId` otherwise; `none` here is
that raised exception. -/
def objectIdParse (s : String) : Option Nat :=
  if s.data.length = 24 then parseHexAux 0 s.data else none

theorem length_toHexDigits (w v : Nat) : (toHexDigits w v).length = w := by
  induction w generalizing v with
  | zero => rfl
  | succ w ih => simp [toHexDigits, ih]

theorem hexCharVal_hexDigitChar (n : Nat) (h : n < 16) :
    hexCharVal (hexDigitChar n) = some n := by
  interval_cases n <;> rfl

theorem parseHexAux_append (acc : Nat) (l₁ l₂ : List Char) :
    parseHexAux acc (l₁ ++ l₂) =
      match parseHexAux acc l₁ with
      | some a => parseHexAux a l₂
      | none => none := by
  induction l₁ generalizing acc with
  | nil => simp [parseHexAux]
  | cons c cs ih =>
    simp only [List.cons_append, parseHexAux]
    cases hexCharVal c with
    | some d => simp [ih]
    | none => rfl

theorem parseHexAux_toHexDigits (w : Nat) :
    ∀ acc v, v < 16 ^ w →
      parseHexAux acc (toHexDigits w v) = some (acc * 16 ^ w + v) := by
  induction w with
  | zero =>
    intro acc v hv
    interval_cases v
    simp [toHexDigits, parseHexAux]
  | succ w ih =>
    intro acc v hv
    have hdiv : v / 16 < 16 ^ w := by
      apply Nat.div_lt_of_lt_mul
      calc v < 16 ^ (w + 1) := hv
        _ = 16 ^ w * 16 := by ring
        _ = 16 * 16 ^ w := by ring
    rw [toHexDigits, parseHexAux_append, ih acc (v / 16) hdiv]
    simp only [parseHexAux, hexCharVal_hexDigitChar (v % 16) (Nat.mod_lt v (by norm_num))]
    congr 1
    have h2 : v / 16 * 16 + v % 16 = v := by omega
    calc (acc * 16 ^ w + v / 16) * 16 + v % 16
        = acc * (16 ^ w * 16) + (v / 16 * 16 + v % 16) := by ring
      _ = acc * 16 ^ (w + 1) + v := by rw [h2, pow_succ]

/-- Parsing the rendered ObjectId string recovers the id. -/
theorem objectIdParse_toHex24 (n : Nat) :
    objectIdParse (toHex24 n) = some (n % 16 ^ 24) := by
  have hlt : n % 16 ^ 24 < 16 ^ 24 := Nat.mod_lt n (by positivity)
  have hp := parseHexAux_toHexDigits 24 0 (n % 16 ^ 24) hlt
  rw [Nat.zero_mul, Nat.zero_add] at hp
  have hrfl : objectIdParse (toHex24 n) =
      if (toHexDigits 24 (n % 16 ^ 24)).length = 24 then
        parseHexAux 0 (toHexDigits 24 (n % 16 ^ 24))
      else none := rfl
  rw [hrfl, if_pos (length_toHexDigits _ _), hp]

end HexCodec

/-! ## Schemas (`src/schemas.py`) -/

/-- The validated `Property` model of `schemas.py`: all defaults applied,
all field constraints satisfied by construction of `validateProperty`. -/
structure Property where
  title : String
  description : String
  location : String
  country : Option String
  price_per_night : ℚ
  max_guests : Int
  bedrooms : Int
  bathrooms : Int
  rating : Option ℚ
  review_count : Option Int
  amenities : List String
  image_urls : List String
deriving DecidableEq

/-- An inbound JSON body for `POST /api/properties` after JSON decoding,
before pydantic validation. `none` in a required field means the key is
missing (or null). For `review_count`, whose declared type is nullable
with default 0, the outer option is key presence and the inner option is
an explicit null. -/
structure PropertyPayload where
  title : Option String
  description : Option String
  location : Option String
  country : Option String
  price_per_night : Option ℚ
  max_guests : Option Int
  bedrooms : Option Int
  bathrooms : Option Int
  rating : Option ℚ
  review_count : Option (Option Int)
  amenities : Option (List String)
  image_urls : Option (List String)
deriving DecidableEq

/-- The fields of a `Property` payload failing pydantic validation against
the field declarations of `schemas.py` lines 35–51 (missing required field,
or range constraint violated). -/
def propErrors (p : PropertyPayload) : List String :=
  (match p.title with
   | none => ["title"]
   | some _ => []) ++
  (match p.description with
   | none => ["description"]
   | some _ => []) ++
  (match p.location with
   | none => ["location"]
   | some _ => []) ++
  (match p.price_per_night with
   | none => ["price_per_night"]
   | some v => if v < 0 then ["price_per_night"] else []) ++
  (match p.max_guests with
   | none => ["max_guests"]
   | some v => if v < 1 then ["max_guests"] else []) ++
  (match p.bedrooms with
   | none => []
   | some v => if v < 0 then ["bedrooms"] else []) ++
  (match p.bathrooms with
   | none => []
   | some v => if v < 0 then ["bathrooms"] else []) ++
  (match p.rating with
   | none => []
   | some r => if r < 0 ∨ 5 < r then ["rating"] else [])

/-- Pydantic validation of a `Property` payload: on success the model with
defaults `bedrooms = 1`, `bathrooms = 1`, `review_count = 0`,
`amenities = []`, `image_urls = []` filled in; on failure the list of
failing fields (FastAPI renders it as HTTP 422). -/
def validateProperty (p : PropertyPayload) : Except (List String) Property :=
  match p.title, p.description, p.location, p.price_per_night, p.max_guests with
  | some t, some d, some l, some pr, some mg =>
    if propErrors p = [] then
      Except.ok
        { title := t
          description := d
          location := l
          country := p.country
          price_per_night := pr
          max_guests := mg
          bedrooms := p.bedrooms.getD 1
          bathrooms := p.bathrooms.getD 1
          rating := p.rating
          review_count := p.review_count.getD (some 0)
          amenities := p.amenities.getD []
          image_urls := p.image_urls.getD [] }
    else Except.error (propErrors p)
  | _, _, _, _, _ => Except.error (propErrors p)

/-- The validated `Booking` model of `schemas.py` lines 53–65. -/
structure Booking where
  property_id : String
  name : String
  email : String
  phone : Option String
  check_in : DateYMD
  check_out : DateYMD
  guests : Int
  message : Option String
deriving DecidableEq

/-- An inbound JSON body for `POST /api/bookings` after JSON decoding;
`none` in a required field means the key is missing (or null). -/
structure BookingPayload where
  property_id : Option String
  name : Option String
  email : Option String
  phone : Option String
  check_in : Option DateYMD
  check_out : Option DateYMD
  guests : Option Int
  message : Option String
deriving DecidableEq

/-- The fields of a `Booking` payload failing pydantic validation: only
required-ness and `guests ≥ 1` are declared; the date fields carry no
ordering constraint and `property_id` carries no referential constraint. -/
def bookingErrors (b : BookingPayload) : List String :=
  (match b.property_id with
   | none => ["property_id"]
   | some _ => []) ++
  (match b.name with
   | none => ["name"]
   | some _ => []) ++
  (match b.email with
   | none => ["email"]
   | some _ => []) ++
  (match b.check_in with
   | none => ["check_in"]
   | some _ => []) ++
  (match b.check_out with
   | none => ["check_out"]
   | some _ => []) ++
  (match b.guests with
   | none => ["guests"]
   | some v => if v < 1 then ["guests"] else [])

/-- Pydantic validation of a `Booking` payload. -/
def validateBooking (b : BookingPayload) : Except (List String) Booking :=
  match b.property_id, b.name, b.email, b.check_in, b.check_out, b.guests with
  | some pid, some nm, some em, some ci, some co, some g =>
    if bookingErrors b = [] then
      Except.ok
        { property_id := pid
          name := nm
          email := em
          phone := b.phone
          check_in := ci
          check_out := co
          guests := g
          message := b.message }
    else Except.error (bookingErrors b)
  | _, _, _, _, _, _ => Except.error (bookingErrors b)

/-! ## Stored documents and the store state -/

/-- A document of the `property` collection as a Mongo dict: `none` in an
outer option means the key is absent. For `rating` and `country` the view
code reads the key with no default, so an absent key and an explicit null
are indistinguishable and are both `none`; for `review_count` the view
code reads the key with default 0, so key absence (outer `none`) and an
explicit null (`some none`) are distinguished. -/
structure PropDoc where
  title : Option String := none
  description : Option String := none
  location : Option String := none
  country : Option String := none
  price_per_night : Option ℚ := none
  max_guests : Option Int := none
  bedrooms : Option Int := none
  bathrooms : Option Int := none
  rating : Option ℚ := none
  review_count : Option (Option Int) := none
  amenities : Option (List String) := none
  image_urls : Option (List String) := none
deriving DecidableEq

/-- The Mongo dump of a validated `Property` model: every declared field is
stored under its key (a null value collapses to an absent key exactly for
the keys the view reads without a default, see `PropDoc`). -/
def propToDoc (pr : Property) : PropDoc :=
  { title := some pr.title
    description := some pr.description
    location := some pr.location
    country := pr.country
    price_per_night := some pr.price_per_night
    max_guests := some pr.max_guests
    bedrooms := some pr.bedrooms
    bathrooms := some pr.bathrooms
    rating := pr.rating
    review_count := some pr.review_count
    amenities := some pr.amenities
    image_urls := some pr.image_urls }

/-- The `PropertyOut` response model of `main.py` lines 22–35. -/
structure PropertyOut where
  id : String
  title : String
  description : String
  location : String
  country : Option String
  price_per_night : ℚ
  max_guests : Int
  bedrooms : Int
  bathrooms : Int
  rating : Option ℚ
  review_count : Option Int
  amenities : List String
  image_urls : List String
deriving DecidableEq

/-- The document → view conversion that both `list_properties` and
`get_property` perform field by field with dict lookups and defaults
(`main.py` lines 133–147 and 164–178). -/
def docToOut (oid : Nat) (d : PropDoc) : PropertyOut :=
  { id := toHex24 oid
    title := d.title.getD ""
    description := d.description.getD ""
    location := d.location.getD ""
    country := d.country
    price_per_night := d.price_per_night.getD 0
    max_guests := d.max_guests.getD 1
    bedrooms := d.bedrooms.getD 1
    bathrooms := d.bathrooms.getD 1
    rating := d.rating
    review_count := d.review_count.getD (some 0)
    amenities := d.amenities.getD []
    image_urls := d.image_urls.getD [] }

/-- The connected document database: the two collections this backend
touches, each a list of (ObjectId, document) pairs in insertion order,
plus the counter from which the store mints fresh ObjectIds. -/
structure DB where
  property : List (Nat × PropDoc)
  booking : List (Nat × Booking)
  nextId : Nat
deriving DecidableEq

/-- A database with both collections empty. -/
def DB.empty : DB := { property := [], booking := [], nextId := 0 }

/-- Well-formedness of the abstract store: minted ids stay below the
16 ^ 24 ObjectId space and every stored id was minted earlier, so a fresh
insert never collides. Real ObjectIds guarantee this by construction. -/
def DB.WF (db : DB) : Prop :=
  db.nextId < 16 ^ 24 ∧ ∀ p ∈ db.property, p.1 < db.nextId

/-! ## Document store adapter (modelled from the spec, §4.2) -/

/-- Lowercased character list of a string (Python regex option i). -/
def lowerChars (s : String) : List Char := s.data.map Char.toLower

/-- Whether the second list occurs contiguously at the head of the first. -/
def startsWithL : List Char → List Char → Bool
  | _, [] => true
  | [], _ :: _ => false
  | a :: as, b :: bs => a = b && startsWithL as bs

/-- Whether the second list occurs contiguously anywhere in the first. -/
def hasInfixL : List Char → List Char → Bool
  | hay, needle =>
    startsWithL hay needle ||
      match hay with
      | [] => false
      | _ :: t => hasInfixL t needle

/-- Modelled from the spec, §4.1: a Mongo case-insensitive regex condition
on a literal pattern is case-insensitive substring containment. -/
def containsCI (hay pat : String) : Bool :=
  hasInfixL (lowerChars hay) (lowerChars pat)

/-- The text field of a property document a regex condition can target,
read as the empty string when absent (only the three fields of §4.1 ever
appear in a filter built by this backend). -/
def textField (d : PropDoc) : String → String
  | "title" => d.title.getD ""
  | "description" => d.description.getD ""
  | "location" => d.location.getD ""
  | _ => ""

/-- Modelled from the spec, §4.1/§4.2: whether a property document matches
one key of a filter dict built by `buildFilter`. -/
def matchesCond (d : PropDoc) : String × FilterValue → Bool
  | (field, FilterValue.regexI pat) => containsCI (textField d field) pat
  | (_, FilterValue.orOf clauses) =>
    clauses.any fun c => containsCI (textField d c.1) c.2
  | (_, FilterValue.range entries) =>
    match d.price_per_night with
    | some v =>
      entries.all fun e =>
        if e.1 = "$gte" then decide (e.2 ≤ v)
        else if e.1 = "$lte" then decide (v ≤ e.2)
        else true
    | none => false

/-- Modelled from the spec, §4.2 (`database.py` is not among the given
sources): `find` on the property collection returns, in natural order, the
documents matching every key of the filter dict. -/
def get_documents (db : DB) (f : List (String × FilterValue)) :
    List (Nat × PropDoc) :=
  db.property.filter fun p => f.all fun c => matchesCond p.2 c

/-- Modelled from the spec, §4.2: `insert` on the property collection
appends the document under a freshly minted ObjectId and returns the id's
string rendering (`create_document` of the absent `database.py`). -/
def DB.insertProp (db : DB) (d : PropDoc) : String × DB :=
  (toHex24 db.nextId,
   { db with property := db.property ++ [(db.nextId, d)], nextId := db.nextId + 1 })

/-- Modelled from the spec, §4.2: `insert` on the booking collection. -/
def DB.insertBooking (db : DB) (b : Booking) : String × DB :=
  (toHex24 db.nextId,
   { db with booking := db.booking ++ [(db.nextId, b)], nextId := db.nextId + 1 })

/-- Modelled from the spec, §4.2: Mongo `find_one` by `_id`, returning the
first stored document carrying the id. -/
def DB.findOne (db : DB) (oid : Nat) : Option PropDoc :=
  (db.property.find? fun p => p.1 = oid).map Prod.snd

/-- A Mongo `insert_many`: ids are minted sequentially and the documents
appended in order (used only by the Startup Seeder's one call). -/
def DB.insertPropMany (db : DB) (ds : List PropDoc) : DB :=
  { db with
    property := db.property ++ ds.enum.map fun e => (db.nextId + e.1, e.2)
    nextId := db.nextId + ds.length }

/-! ## HTTP handlers (`src/main.py`) -/

/-- What escapes a route handler abnormally: `httpException s d` is a
raised `fastapi.HTTPException(status_code = s, detail = d)`; `uncaught m`
is any other Python exception propagating out of the handler, which
FastAPI turns into an HTTP 500 response. -/
inductive HandlerError where
  | httpException (status : Nat) (detail : String)
  | uncaught (msg : String)
deriving DecidableEq

/-- `GET /api/properties` (`main.py` lines 109–148): with no store
connection the handler returns the empty list at once; otherwise it builds
the filter, queries the store and maps every document to a view object.
The 200 status is FastAPI's default for a normal return. -/
def list_properties (db? : Option DB) (q location : Option String)
    (min_price max_price : Option ℚ) :
    Except HandlerError (Nat × List PropertyOut) :=
  match db? with
  | none => Except.ok (200, [])
  | some db =>
    let filter_dict := buildFilter q location min_price max_price
    let docs := get_documents db filter_dict
    Except.ok (200, docs.map fun p => docToOut p.1 p.2)

/-- `POST /api/properties` (`main.py` lines 151–154) together with the
pydantic validation FastAPI runs before the handler: a payload failing
validation yields HTTP 422 listing the failing fields and nothing is
inserted; a valid one is dumped and inserted, answering 201 with the new
id. The handler itself never checks the connection (spec §9 policy gap),
so it is modelled on a connected store. -/
def create_property (db : DB) (payload : PropertyPayload) :
    (Except (Nat × List String) (Nat × String)) × DB :=
  match validateProperty payload with
  | Except.error errs => (Except.error (422, errs), db)
  | Except.ok prop =>
    let r := db.insertProp (propToDoc prop)
    (Except.ok (201, r.1), r.2)

/-- `GET /api/properties/{property_id}` (`main.py` lines 157–178): 404
when no store connection; otherwise the id is handed to `bson.ObjectId`,
whose `InvalidId` exception is NOT caught by the handler; a missing
document is 404; a found one is mapped to a view object. -/
def get_property (db? : Option DB) (property_id : String) :
    Except HandlerError PropertyOut :=
  match db? with
  | none => Except.error (HandlerError.httpException 404 "Not found")
  | some db =>
    match objectIdParse property_id with
    | none => Except.error (HandlerError.uncaught "bson.errors.InvalidId")
    | some oid =>
      match db.findOne oid with
      | none => Except.error (HandlerError.httpException 404 "Not found")
      | some d => Except.ok (docToOut oid d)

/-- The response body of `POST /api/bookings`. -/
structure BookingCreated where
  id : String
  status : String
deriving DecidableEq

/-- `POST /api/bookings` (`main.py` lines 181–184) together with the
pydantic validation FastAPI runs before the handler: a payload failing
validation yields HTTP 422 and nothing is inserted; a valid one is
inserted, answering 201 with the new id and status "received". -/
def create_booking (db : DB) (payload : BookingPayload) :
    (Except (Nat × List String) (Nat × BookingCreated)) × DB :=
  match validateBooking payload with
  | Except.error errs => (Except.error (422, errs), db)
  | Except.ok bk =>
    let r := db.insertBooking bk
    (Except.ok (201, { id := r.1, status := "received" }), r.2)

/-! ## Startup Seeder (`main.py` lines 38–101) -/

/-- Which of the seeder's two store calls raise, modelling the
`try/except` around `count_documents` and `insert_many`. -/
structure StoreBehavior where
  count_fails : Bool
  insert_fails : Bool
deriving DecidableEq

/-- Seed record "Cozy Mountain Hut" (`main.py` lines 46–62). -/
def seedDoc1 : PropDoc :=
  { title := some "Cozy Mountain Hut"
    description := some "A charming wooden hut nestled in the mountains with breathtaking views."
    location := some "Aspen, Colorado"
    country := some "USA"
    price_per_night := some 220
    max_guests := some 4
    bedrooms := some 2
    bathrooms := some 1
    rating := some 4.8
    review_count := some (some 128)
    amenities := some ["Fireplace", "Hot tub", "Wi-Fi", "Kitchen"]
    image_urls := some
      ["https://images.unsplash.com/photo-1512917774080-9991f1c4c750",
       "https://images.unsplash.com/photo-1505691723518-36a5ac3b2d95"] }

/-- Seed record "Lakeside Cabin Retreat" (`main.py` lines 63–79). -/
def seedDoc2 : PropDoc :=
  { title := some "Lakeside Cabin Retreat"
    description := some "Quiet cabin right on the lake. Perfect for fishing and sunsets."
    location := some "Lake Tahoe, California"
    country := some "USA"
    price_per_night := some 180
    max_guests := some 5
    bedrooms := some 2
    bathrooms := some 2
    rating := some 4.6
    review_count := some (some 86)
    amenities := some ["Canoe", "Deck", "Grill", "Parking"]
    image_urls := some
      ["https://images.unsplash.com/photo-1501183638710-841dd1904471",
       "https://images.unsplash.com/photo-1500530855697-b586d89ba3ee"] }

/-- Seed record "Nordic Forest Lodge" (`main.py` lines 80–96). -/
def seedDoc3 : PropDoc :=
  { title := some "Nordic Forest Lodge"
    description := some "Modern Scandinavian lodge surrounded by pine forests."
    location := some "Rovaniemi, Finland"
    country := some "Finland"
    price_per_night := some 260
    max_guests := some 6
    bedrooms := some 3
    bathrooms := some 2
    rating := some 4.9
    review_count := some (some 203)
    amenities := some ["Sauna", "Heated floors", "Wi-Fi", "Ski-in"]
    image_urls := some
      ["https://images.unsplash.com/photo-1519999482648-25049ddd37b1",
       "https://images.unsplash.com/photo-1544989164-31dc3c645987"] }

/-- The fixed sample list of the seeder. -/
def seedSamples : List PropDoc := [seedDoc1, seedDoc2, seedDoc3]

/-- The seeder's body on a connected store: count the `property`
collection, insert the three samples only when the count is exactly 0, and
swallow any exception of either store call, leaving the store as the
failed call left it (a failed count counts nothing; a failed bulk insert
inserts nothing, per spec §4.4: "no seeding occurs"). -/
def seedConnected (db : DB) (b : StoreBehavior) : DB :=
  if b.count_fails then db
  else if db.property.length = 0 then
    if b.insert_fails then db
    else db.insertPropMany seedSamples
  else db

/-- `seed_sample_properties` (`main.py` lines 38–101): returns immediately
when no store connection, otherwise runs the guarded seeding body; in
every case the startup hook returns normally. -/
def seed_sample_properties (db? : Option DB) (b : StoreBehavior) : Option DB :=
  match db? with
  | none => none
  | some db => some (seedConnected db b)

/-! ## The filter structure stated by the spec (§4.1)

Two renderings of the spec's words, used to compare `buildFilter` against
the specification: `specFilterClaim` reads "if q is present" literally
(any provided value, the empty string included); `specFilterAmended` reads
it as "present and non-empty". Both are written clause by clause from the
spec's text, not from the code. -/

/-- Claim reading of the q clause: present means any provided value. -/
def qClauseClaim : Option String → List (String × FilterValue)
  | some s => [("$or", FilterValue.orOf
      [("title", s), ("description", s), ("location", s)])]
  | none => []

/-- Claim reading of the location clause. -/
def locationClauseClaim : Option String → List (String × FilterValue)
  | some s => [("location", FilterValue.regexI s)]
  | none => []

/-- The gte bound contributed by a provided minimum price. -/
def gteEntry : Option ℚ → List (String × ℚ)
  | some m => [("$gte", m)]
  | none => []

/-- The lte bound contributed by a provided maximum price. -/
def lteEntry : Option ℚ → List (String × ℚ)
  | some m => [("$lte", m)]
  | none => []

/-- The price clause of §4.1: present when at least one bound is provided,
holding exactly the provided bounds. -/
def priceClauseSpec (mn mx : Option ℚ) : List (String × FilterValue) :=
  match mn, mx with
  | none, none => []
  | _, _ => [("price_per_night", FilterValue.range (gteEntry mn ++ lteEntry mx))]

/-- The filter of claim C1, clause by clause from the spec's words with
"present" read literally. -/
def specFilterClaim (q location : Option String) (mn mx : Option ℚ) :
    List (String × FilterValue) :=
  qClauseClaim q ++ locationClauseClaim location ++ priceClauseSpec mn mx

/-- Amended reading of the q clause: a clause only for a present AND
non-empty value. -/
def qClauseAmended : Option String → List (String × FilterValue)
  | some s =>
    if s = "" then []
    else [("$or", FilterValue.orOf
      [("title", s), ("description", s), ("location", s)])]
  | none => []

/-- Amended reading of the location clause. -/
def locationClauseAmended : Option String → List (String × FilterValue)
  | some s => if s = "" then [] else [("location", FilterValue.regexI s)]
  | none => []

/-- The filter of claim C1 as amended: string parameters contribute a
clause only when present and non-empty. -/
def specFilterAmended (q location : Option String) (mn mx : Option ℚ) :
    List (String × FilterValue) :=
  qClauseAmended q ++ locationClauseAmended location ++ priceClauseSpec mn mx

/-- C1 (counterexample): the claim as stated fails at the provided empty
string: the code's filter for q = "" is empty, while the claimed structure
demands the three-way disjunction for every present q. -/
theorem buildFilter_claim_counterexample :
    buildFilter (some "") none none none = [] ∧
    specFilterClaim (some "") none none none =
      [("$or", FilterValue.orOf
        [("title", ""), ("description", ""), ("location", "")])] ∧
    buildFilter (some "") none none none ≠
      specFilterClaim (some "") none none none := by
  refine ⟨rfl, rfl, ?_⟩
  decide

/-- C1 (amended): for every combination of the optional parameters, the
filter built by the properties list endpoint is exactly the §4.1
structure, with "present" read as "present and non-empty" for the two
string parameters: the q disjunction, the conjoined location condition and
the provided price bounds, in this order, absent parameters contributing
no clause (in particular an absent min_price is not treated as 0). -/
theorem buildFilter_eq_specFilterAmended (q location : Option String)
    (mn mx : Option ℚ) :
    buildFilter q location mn mx = specFilterAmended q location mn mx := by
  cases q <;> cases location <;> cases mn <;> cases mx <;>
    simp [buildFilter, specFilterAmended, qClauseAmended, locationClauseAmended,
      priceClauseSpec, gteEntry, lteEntry] <;>
    split_ifs <;> simp

/-- C9: the empty string provided as q or location contributes no filter
clause (exactly as an absent parameter), while a provided price bound of 0
does contribute its comparison to the price clause. -/
theorem emptyString_absent_zero_price_present :
    (∀ location mn mx, buildFilter (some "") location mn mx =
      buildFilter none location mn mx) ∧
    (∀ q mn mx, buildFilter q (some "") mn mx = buildFilter q none mn mx) ∧
    (∀ q location mx, ∃ entries,
      buildFilter q location (some 0) mx =
        buildFilter q location none none ++
          [("price_per_night", FilterValue.range entries)] ∧
      ("$gte", (0 : ℚ)) ∈ entries) ∧
    (∀ q location mn, ∃ entries,
      buildFilter q location mn (some 0) =
        buildFilter q location none none ++
          [("price_per_night", FilterValue.range entries)] ∧
      ("$lte", (0 : ℚ)) ∈ entries) := by
  refine ⟨fun location mn mx => rfl, fun q mn mx => ?_, fun q location mx => ?_,
    fun q location mn => ?_⟩
  · cases q <;> simp [buildFilter]
  · refine ⟨[("$gte", 0)] ++ lteEntry mx, ?_, by simp⟩
    cases mx <;> simp [buildFilter, lteEntry]
  · refine ⟨gteEntry mn ++ [("$lte", 0)], ?_, by simp⟩
    cases mn <;> simp [buildFilter, gteEntry]

/-- C5: with no store connection, the properties list endpoint answers
HTTP 200 with the empty sequence for every combination of query
parameters, never an error. -/
theorem list_properties_no_store (q location : Option String)
    (mn mx : Option ℚ) :
    list_properties none q location mn mx = Except.ok (200, []) := rfl

/-- C10: with no store connection, the single-property endpoint answers
HTTP 404 with detail "Not found" for every id, well-formed ones included,
before any id parsing or lookup. -/
theorem get_property_no_store (property_id : String) :
    get_property none property_id =
      Except.error (HandlerError.httpException 404 "Not found") := rfl

/-- C2 (code behavior at the failing input): with a connected store, a
syntactically invalid id is handed to the ObjectId constructor, whose
InvalidId exception escapes the handler uncaught (FastAPI answers HTTP
500), instead of the specified 404 "Not found". -/
theorem get_property_invalid_id_uncaught :
    get_property (some DB.empty) "abc" =
      Except.error (HandlerError.uncaught "bson.errors.InvalidId") ∧
    get_property (some DB.empty) "abc" ≠
      Except.error (HandlerError.httpException 404 "Not found") := by
  have h1 : get_property (some DB.empty) "abc" =
      Except.error (HandlerError.uncaught "bson.errors.InvalidId") := rfl
  refine ⟨h1, ?_⟩
  rw [h1]
  simp

/-- C3: the Startup Seeder on a connected store: an empty property
collection plus failure-free store calls leaves exactly the three literal
sample records; a non-empty collection leaves the store untouched; and a
failing count or insert leaves the store untouched with no error
surfacing (the seeding function returns normally in every case). -/
theorem seeder_spec (db : DB) (b : StoreBehavior) :
    (db.property = [] → b.count_fails = false → b.insert_fails = false →
      (seedConnected db b).property =
        [(db.nextId, seedDoc1), (db.nextId + 1, seedDoc2),
         (db.nextId + 2, seedDoc3)]) ∧
    (db.property ≠ [] → seedConnected db b = db) ∧
    (b.count_fails = true ∨ b.insert_fails = true → seedConnected db b = db) := by
  obtain ⟨cf, insf⟩ := b
  refine ⟨?_, ?_, ?_⟩
  · intro hemp hcf hif
    subst hcf hif
    simp [seedConnected, hemp, DB.insertPropMany, seedSamples, List.enum]
  · intro hne
    have : db.property.length ≠ 0 := by
      simpa [List.length_eq_zero] using hne
    cases cf <;> simp [seedConnected, this]
  · rintro (h | h) <;> simp only [] at h <;> subst h <;> simp [seedConnected]

/-- C3 witness: seeding an empty store with failure-free store calls
yields exactly the three samples under the first three minted ids. -/
theorem seeder_spec_witness :
    (seedConnected DB.empty ⟨false, false⟩).property =
      [(0, seedDoc1), (1, seedDoc2), (2, seedDoc3)] := by
  have h := (seeder_spec DB.empty ⟨false, false⟩).1 rfl rfl rfl
  simpa [DB.empty] using h

/-- The concrete property payload of C6, valid except for its negative
price. -/
def negPricePayload : PropertyPayload :=
  { title := some "Test"
    description := some "d"
    location := some "X"
    country := none
    price_per_night := some (-1)
    max_guests := some 2
    bedrooms := none
    bathrooms := none
    rating := none
    review_count := none
    amenities := none
    image_urls := none }

/-- The concrete booking payload of C6, valid except for guests = 0. -/
def zeroGuestsPayload : BookingPayload :=
  { property_id := some "aaaaaaaaaaaaaaaaaaaaaaaa"
    name := some "A"
    email := some "a@example.com"
    phone := none
    check_in := some ⟨2026, 1, 1⟩
    check_out := some ⟨2026, 1, 5⟩
    guests := some 0
    message := none }

/-- C6: schema validation rejects out-of-range values with HTTP 422
naming the failing field, and no insert occurs (the store comes back
unchanged): price_per_night = -1 on the property endpoint and guests = 0
on the booking endpoint. -/
theorem validation_422_no_insert :
    create_property DB.empty negPricePayload =
      (Except.error (422, ["price_per_night"]), DB.empty) ∧
    create_booking DB.empty zeroGuestsPayload =
      (Except.error (422, ["guests"]), DB.empty) := by
  constructor <;> rfl

/-! ## Reachable store states and the Property invariant -/

/-- The §3 invariant on a stored property document: a non-negative price,
a guest capacity of at least 1, and a rating within [0, 5] when a rating
key is present. -/
def PropInv (d : PropDoc) : Prop :=
  (∃ v, d.price_per_night = some v ∧ 0 ≤ v) ∧
  (∃ g, d.max_guests = some g ∧ 1 ≤ g) ∧
  (d.rating = none ∨ ∃ r, d.rating = some r ∧ 0 ≤ r ∧ r ≤ 5)

theorem propInv_seedDoc1 : PropInv seedDoc1 :=
  ⟨⟨220, rfl, by norm_num⟩, ⟨4, rfl, by norm_num⟩,
    Or.inr ⟨4.8, rfl, by norm_num, by norm_num⟩⟩

theorem propInv_seedDoc2 : PropInv seedDoc2 :=
  ⟨⟨180, rfl, by norm_num⟩, ⟨5, rfl, by norm_num⟩,
    Or.inr ⟨4.6, rfl, by norm_num, by norm_num⟩⟩

theorem propInv_seedDoc3 : PropInv seedDoc3 :=
  ⟨⟨260, rfl, by norm_num⟩, ⟨6, rfl, by norm_num⟩,
    Or.inr ⟨4.9, rfl, by norm_num, by norm_num⟩⟩

/-- A payload passing pydantic validation yields a model observing the
declared range constraints. -/
theorem validateProperty_ok_constraints (p : PropertyPayload) (pr : Property)
    (h : validateProperty p = Except.ok pr) :
    0 ≤ pr.price_per_night ∧ 1 ≤ pr.max_guests ∧
      (pr.rating = none ∨ ∃ r, pr.rating = some r ∧ 0 ≤ r ∧ r ≤ 5) := by
  obtain ⟨t, d, l, c, prv, mg, bd, ba, rt, rc, am, iu⟩ := p
  cases t <;> cases d <;> cases l <;> cases prv <;> cases mg <;>
    simp only [validateProperty] at h <;> try exact absurd h (by simp)
  rename_i t d l prv mg
  by_cases hE : propErrors ⟨some t, some d, some l, c, some prv, some mg,
      bd, ba, rt, rc, am, iu⟩ = []
  · rw [if_pos hE] at h
    have hpr := Except.ok.inj h
    subst hpr
    simp only [propErrors, List.append_eq_nil] at hE
    obtain ⟨⟨⟨⟨⟨⟨⟨-, -⟩, -⟩, hprice⟩, hmg⟩, -⟩, -⟩, hrt⟩ := hE
    refine ⟨?_, ?_, ?_⟩
    · by_contra hneg
      rw [if_pos (by simpa using not_le.mp hneg)] at hprice
      exact absurd hprice (by simp)
    · by_contra hneg
      rw [if_pos (by simpa using not_le.mp hneg)] at hmg
      exact absurd hmg (by simp)
    · cases rt with
      | none => exact Or.inl rfl
      | some r =>
        have hrt' : (if r < 0 ∨ 5 < r then ["rating"] else ([] : List String)) = [] := hrt
        by_cases hc : r < 0 ∨ 5 < r
        · rw [if_pos hc] at hrt'
          exact absurd hrt' (by simp)
        · push_neg at hc
          exact Or.inr ⟨r, rfl, hc.1, hc.2⟩
  · rw [if_neg hE] at h
    exact absurd h (by simp)

/-- The store states this system can produce: from the empty store,
through startup seeding (with any store-call outcome) and through the two
write endpoints (with any payload — an invalid one changes nothing). The
read endpoints touch no state. -/
inductive Reach : DB → Prop where
  | init : Reach DB.empty
  | seed (db : DB) (b : StoreBehavior) : Reach db → Reach (seedConnected db b)
  | createProp (db : DB) (p : PropertyPayload) :
      Reach db → Reach (create_property db p).2
  | createBooking (db : DB) (p : BookingPayload) :
      Reach db → Reach (create_booking db p).2

/-- C7: every property record in every reachable store state satisfies
the §3 invariant — records enter the store only through the validated
create endpoint or the fixed-sample seeder, and no exposed operation
mutates or deletes a stored property. -/
theorem reachable_property_invariant (db : DB) (h : Reach db) :
    ∀ p ∈ db.property, PropInv p.2 := by
  induction h with
  | init => simp [DB.empty]
  | seed db b _ ih =>
    intro p hp
    unfold seedConnected at hp
    split at hp
    · exact ih p hp
    · split at hp
      · split at hp
        · exact ih p hp
        · simp only [DB.insertPropMany, List.mem_append] at hp
          rcases hp with hp | hp
          · exact ih p hp
          · simp only [seedSamples, List.enum, List.mem_map] at hp
            obtain ⟨e, he, rfl⟩ := hp
            fin_cases he
            · exact propInv_seedDoc1
            · exact propInv_seedDoc2
            · exact propInv_seedDoc3
      · exact ih p hp
  | createProp db payload _ ih =>
    intro p hp
    unfold create_property at hp
    cases hval : validateProperty payload with
    | error errs =>
      rw [hval] at hp
      exact ih p hp
    | ok prop =>
      rw [hval] at hp
      simp only [DB.insertProp, List.mem_append] at hp
      rcases hp with hp | hp
      · exact ih p hp
      · simp only [List.mem_singleton] at hp
        subst hp
        obtain ⟨h1, h2, h3⟩ := validateProperty_ok_constraints payload prop hval
        exact ⟨⟨prop.price_per_night, rfl, h1⟩, ⟨prop.max_guests, rfl, h2⟩, h3⟩
  | createBooking db payload _ ih =>
    intro p hp
    unfold create_booking at hp
    cases hval : validateBooking payload with
    | error errs =>
      rw [hval] at hp
      exact ih p hp
    | ok bk =>
      rw [hval] at hp
      simp only [DB.insertBooking] at hp
      exact ih p hp

/-- C7 witness: the invariant at a concrete reachable state, the store
just after seeding an empty one. -/
theorem reachable_property_invariant_witness : PropInv seedDoc1 :=
  reachable_property_invariant (seedConnected DB.empty ⟨false, false⟩)
    (Reach.seed DB.empty ⟨false, false⟩ Reach.init) (0, seedDoc1)
    (by simp [seedConnected, DB.empty, DB.insertPropMany, seedSamples, List.enum])

/-! ## Round-trip and booking theorems -/

theorem find?_append_no_match {α : Type} (p : α → Bool) (l₁ l₂ : List α)
    (h : ∀ x ∈ l₁, p x = false) : (l₁ ++ l₂).find? p = l₂.find? p := by
  induction l₁ with
  | nil => simp
  | cons a as ih =>
    have ha := h a (List.mem_cons_self a as)
    simp only [List.cons_append, List.find?, ha]
    exact ih fun x hx => h x (List.mem_cons_of_mem a hx)

/-- C4: inserting a schema-valid Property payload through the create
endpoint and fetching the returned id through the single-property
endpoint yields a view object equal field for field to the validated
payload (omitted optional fields carrying their schema defaults), under
the id the store minted. -/
theorem create_then_get_roundtrip (db : DB) (payload : PropertyPayload)
    (prop : Property) (hWF : DB.WF db)
    (hval : validateProperty payload = Except.ok prop) :
    ∃ rid db',
      create_property db payload = (Except.ok (201, rid), db') ∧
      get_property (some db') rid = Except.ok
        { id := rid
          title := prop.title
          description := prop.description
          location := prop.location
          country := prop.country
          price_per_night := prop.price_per_night
          max_guests := prop.max_guests
          bedrooms := prop.bedrooms
          bathrooms := prop.bathrooms
          rating := prop.rating
          review_count := prop.review_count
          amenities := prop.amenities
          image_urls := prop.image_urls } := by
  refine ⟨toHex24 db.nextId,
    { db with
      property := db.property ++ [(db.nextId, propToDoc prop)]
      nextId := db.nextId + 1 }, ?_, ?_⟩
  · simp [create_property, hval, DB.insertProp]
  · have hparse : objectIdParse (toHex24 db.nextId) = some db.nextId := by
      rw [objectIdParse_toHex24, Nat.mod_eq_of_lt hWF.1]
    have hfind :
        DB.findOne
          { db with
            property := db.property ++ [(db.nextId, propToDoc prop)]
            nextId := db.nextId + 1 } db.nextId = some (propToDoc prop) := by
      unfold DB.findOne
      rw [show ({ db with
          property := db.property ++ [(db.nextId, propToDoc prop)]
          nextId := db.nextId + 1 } : DB).property
        = db.property ++ [(db.nextId, propToDoc prop)] from rfl]
      rw [find?_append_no_match]
      · simp [List.find?]
      · intro x hx
        have hlt := hWF.2 x hx
        simp only [decide_eq_false_iff_not]
        omega
    unfold get_property
    rw [hparse]
    simp only [hfind]
    simp [docToOut, propToDoc]

/-- C8: every Booking payload passing the field-level schema is accepted
with HTTP 201 and body id + status "received" — the handler imposes no
condition on date ordering or on property_id referencing a stored
Property. -/
theorem booking_received (db : DB) (payload : BookingPayload) (bk : Booking)
    (h : validateBooking payload = Except.ok bk) :
    (create_booking db payload).1 =
      Except.ok (201, { id := toHex24 db.nextId, status := "received" }) := by
  simp [create_booking, h, DB.insertBooking]

/-- The C8 witness payload: schema-valid, with check_out strictly before
check_in and a property_id matching no stored Property. -/
def reversedDatesPayload : BookingPayload :=
  { property_id := some "ffffffffffffffffffffffff"
    name := some "N"
    email := some "n@example.com"
    phone := none
    check_in := some ⟨2026, 5, 10⟩
    check_out := some ⟨2026, 5, 1⟩
    guests := some 2
    message := none }

/-- The validated model of `reversedDatesPayload`. -/
def reversedDatesBooking : Booking :=
  { property_id := "ffffffffffffffffffffffff"
    name := "N"
    email := "n@example.com"
    phone := none
    check_in := ⟨2026, 5, 10⟩
    check_out := ⟨2026, 5, 1⟩
    guests := 2
    message := none }

/-- C8 witness: on the empty store (so the referenced property does not
exist) and with check_out before check_in, the booking endpoint still
answers 201 with status "received". -/
theorem booking_received_witness :
    (create_booking DB.empty reversedDatesPayload).1 =
      Except.ok (201, { id := toHex24 0, status := "received" }) ∧
    DateYMD.before reversedDatesBooking.check_out
      reversedDatesBooking.check_in = true ∧
    DB.empty.property = [] :=
  ⟨booking_received DB.empty reversedDatesPayload reversedDatesBooking rfl,
    by decide, rfl⟩

/-- The C4 witness payload: the §8 example body, optional fields omitted. -/
def roundtripPayload : PropertyPayload :=
  { title := some "Test"
    description := some "d"
    location := some "X"
    country := none
    price_per_night := some 100
    max_guests := some 2
    bedrooms := none
    bathrooms := none
    rating := none
    review_count := none
    amenities := none
    image_urls := none }

/-- The validated model of `roundtripPayload`, schema defaults filled. -/
def roundtripProperty : Property :=
  { title := "Test"
    description := "d"
    location := "X"
    country := none
    price_per_night := 100
    max_guests := 2
    bedrooms := 1
    bathrooms := 1
    rating := none
    review_count := some 0
    amenities := []
    image_urls := [] }

/-- C4 witness: the round trip at the concrete §8 example payload on the
empty store. -/
theorem create_then_get_roundtrip_witness :
    ∃ rid db',
      create_property DB.empty roundtripPayload = (Except.ok (201, rid), db') ∧
      get_property (some db') rid = Except.ok
        { id := rid
          title := "Test"
          description := "d"
          location := "X"
          country := none
          price_per_night := 100
          max_guests := 2
          bedrooms := 1
          bathrooms := 1
          rating := none
          review_count := some 0
          amenities := []
          image_urls := [] } :=
  create_then_get_roundtrip DB.empty roundtripPayload roundtripProperty
    ⟨by norm_num [DB.empty], by simp [DB.empty]⟩ rfl
